import Mathlib

/-!
Verification of the Learning Intelligence Tool analytics core.

Shallow embedding of the Python sources under `src/`:
  * `src/config.py` — thresholds and difficulty weights;
  * `src/models/dropout_detector.py` — risk-level thresholding;
  * `src/models/difficulty_analyzer.py` — min-max normalization, weighted
    difficulty score, binning, dense ranking, descending sort;
  * `src/data/feature_engineering.py` — student feature aggregation and
    the score-trend computation;
  * `src/data/ingestion.py` — batch validation (with its in-place column
    coercion);
  * `src/data/preprocessing.py` — imputation and IQR outlier clamping.

Python floats are modelled as `ℚ`; pandas `NaN` cells as `Option`/an
explicit `Cell.nan` constructor.  Standard-deviation columns
(`score_std`, `time_std`) need `Real.sqrt` and are referenced by no
claim, so the student/chapter feature records omit them.
-/

namespace LIT

/-- Minimum of a list of rationals (`pandas Series.min`); the `[]` case is
never reached on the batches the code handles (0 is a junk value). -/
def listMin : List ℚ → ℚ
  | [] => 0
  | x :: xs => xs.foldl min x

/-- Maximum of a list of rationals (`pandas Series.max`). -/
def listMax : List ℚ → ℚ
  | [] => 0
  | x :: xs => xs.foldl max x

/-- Arithmetic mean of a list (`pandas Series.mean`); on `[]` the `ℚ`
division by zero yields 0 where pandas yields `NaN` — every use below is
on a non-empty list. -/
def mean (xs : List ℚ) : ℚ := xs.sum / xs.length

theorem foldl_min_le_init (xs : List ℚ) (a : ℚ) : xs.foldl min a ≤ a := by
  induction xs generalizing a with
  | nil => exact le_refl a
  | cons x xs ih => exact le_trans (ih (min a x)) (min_le_left a x)

theorem foldl_min_le_mem (xs : List ℚ) (a x : ℚ) (hx : x ∈ xs) :
    xs.foldl min a ≤ x := by
  induction xs generalizing a with
  | nil => cases hx
  | cons y ys ih =>
    rcases List.mem_cons.mp hx with h | h
    · subst h
      exact le_trans (foldl_min_le_init ys (min a x)) (min_le_right a x)
    · exact ih (min a y) h

theorem init_le_foldl_max (xs : List ℚ) (a : ℚ) : a ≤ xs.foldl max a := by
  induction xs generalizing a with
  | nil => exact le_refl a
  | cons x xs ih => exact le_trans (le_max_left a x) (ih (max a x))

theorem mem_le_foldl_max (xs : List ℚ) (a x : ℚ) (hx : x ∈ xs) :
    x ≤ xs.foldl max a := by
  induction xs generalizing a with
  | nil => cases hx
  | cons y ys ih =>
    rcases List.mem_cons.mp hx with h | h
    · subst h
      exact le_trans (le_max_right a x) (init_le_foldl_max ys (max a x))
    · exact ih (max a y) h

theorem listMin_le_of_mem {xs : List ℚ} {x : ℚ} (hx : x ∈ xs) :
    listMin xs ≤ x := by
  cases xs with
  | nil => cases hx
  | cons y ys =>
    rcases List.mem_cons.mp hx with h | h
    · subst h; exact foldl_min_le_init ys x
    · exact foldl_min_le_mem ys y x h

theorem le_listMax_of_mem {xs : List ℚ} {x : ℚ} (hx : x ∈ xs) :
    x ≤ listMax xs := by
  cases xs with
  | nil => cases hx
  | cons y ys =>
    rcases List.mem_cons.mp hx with h | h
    · subst h; exact init_le_foldl_max ys x
    · exact mem_le_foldl_max ys y x h

/-! ## Risk classifier (`src/models/dropout_detector.py`, lines 90-93)

`np.where(risk_scores >= HIGH_RISK_THRESHOLD, 'High',
          np.where(risk_scores >= MEDIUM_RISK_THRESHOLD, 'Medium', 'Low'))`
with the thresholds of `src/config.py` lines 41-42. -/

/-- Threshold `HIGH_RISK_THRESHOLD = 0.7` (`src/config.py` line 41). -/
def HIGH_RISK_THRESHOLD : ℚ := 0.7

/-- Threshold `MEDIUM_RISK_THRESHOLD = 0.4` (`src/config.py` line 42). -/
def MEDIUM_RISK_THRESHOLD : ℚ := 0.4

/-- One cell of the vectorised `np.where` in
`DropoutDetector.predict_risk_level`. -/
def predict_risk_level (s : ℚ) : String :=
  if HIGH_RISK_THRESHOLD ≤ s then ("High")
  else if MEDIUM_RISK_THRESHOLD ≤ s then ("Medium")
  else ("Low")

/-! ## Difficulty analyzer (`src/models/difficulty_analyzer.py`) -/

/-- Weight record shape of `DIFFICULTY_WEIGHTS` (`src/config.py` lines 45-50). -/
structure DifficultyWeights where
  dropout_rate : ℚ
  avg_time : ℚ
  avg_score : ℚ
  completion_rate : ℚ

/-- The configured weight values. -/
def DIFFICULTY_WEIGHTS : DifficultyWeights :=
  { dropout_rate := 0.35, avg_time := 0.25, avg_score := 0.30,
    completion_rate := 0.10 }

/-- A chapter-level feature vector (`engineer_chapter_features` output, the
columns `DifficultyAnalyzer.analyze_difficulty` reads; the std columns are
omitted, see the file header). -/
structure ChapterFeatures where
  course_id : ℤ
  chapter_order : ℤ
  avg_score : ℚ
  student_count : ℕ
  avg_time_spent : ℚ
  completions : ℚ
  attempts : ℕ
  completion_rate : ℚ
  dropout_rate : ℚ
  deriving DecidableEq, Repr

/-- Method `DifficultyAnalyzer._normalize` (lines 99-115): min-max scaling of a
whole series, every entry 0 when `max == min`. -/
def _normalize (series : List ℚ) : List ℚ :=
  let min_val := listMin series
  let max_val := listMax series
  if max_val = min_val then series.map (fun _ => 0)
  else series.map (fun x => (x - min_val) / (max_val - min_val))

/-- The value `_normalize` assigns to the entry `x` of the series: column
assignment in pandas is positionally aligned, so the normalised column
holds `normVal series x` at each row whose raw value is `x`
(`_normalize_eq_map` below makes the alignment precise). -/
def normVal (series : List ℚ) (x : ℚ) : ℚ :=
  if listMax series = listMin series then 0
  else (x - listMin series) / (listMax series - listMin series)

theorem _normalize_eq_map (series : List ℚ) :
    _normalize series = series.map (normVal series) := by
  unfold _normalize normVal
  by_cases h : listMax series = listMin series
  · simp [h]
  · simp [h]

/-- The `difficulty_score` column value for the row `c` of the batch
(lines 34-48): weighted sum of the four normalised signals, the score and
completion-rate signals inverted, scaled by 100. -/
def chapterScore (batch : List ChapterFeatures) (c : ChapterFeatures) : ℚ :=
  (normVal (batch.map (·.dropout_rate)) c.dropout_rate
      * DIFFICULTY_WEIGHTS.dropout_rate
    + normVal (batch.map (·.avg_time_spent)) c.avg_time_spent
      * DIFFICULTY_WEIGHTS.avg_time
    + (1 - normVal (batch.map (·.avg_score)) c.avg_score)
      * DIFFICULTY_WEIGHTS.avg_score
    + (1 - normVal (batch.map (·.completion_rate)) c.completion_rate)
      * DIFFICULTY_WEIGHTS.completion_rate) * 100

/-- Binning `pd.cut(..., bins=[0, 33, 66, 100], labels=['Easy', 'Medium', 'Hard'],
include_lowest=True)` (lines 51-56): closed bins with the lowest edge
inclusive; out-of-range values get `NaN` (`none`). -/
def difficultyLevel (s : ℚ) : Option String :=
  if 0 ≤ s ∧ s ≤ 33 then some ("Easy")
  else if 33 < s ∧ s ≤ 66 then some ("Medium")
  else if 66 < s ∧ s ≤ 100 then some ("Hard")
  else none

/-- Ranking `Series.rank(ascending=False, method='dense')` (line 59): the dense
descending rank of `x` in `scores` is one more than the number of distinct
score values strictly above `x`. -/
def denseRank (scores : List ℚ) (x : ℚ) : ℕ :=
  (scores.toFinset.filter (fun y => x < y)).card + 1

/-- One row of `analyze_difficulty`'s result (the columns selected at
lines 62-66). -/
structure DifficultyAssessment where
  course_id : ℤ
  chapter_order : ℤ
  difficulty_score : ℚ
  difficulty_level : Option String
  difficulty_rank : ℕ
  dropout_rate : ℚ
  avg_time_spent : ℚ
  avg_score : ℚ
  completion_rate : ℚ
  student_count : ℕ
  deriving DecidableEq, Repr

/-- The assessment row built for chapter `c` of `batch` (lines 31-66). -/
def assessmentRow (batch : List ChapterFeatures) (c : ChapterFeatures) :
    DifficultyAssessment :=
  { course_id := c.course_id
    chapter_order := c.chapter_order
    difficulty_score := chapterScore batch c
    difficulty_level := difficultyLevel (chapterScore batch c)
    difficulty_rank := denseRank (batch.map (chapterScore batch))
      (chapterScore batch c)
    dropout_rate := c.dropout_rate
    avg_time_spent := c.avg_time_spent
    avg_score := c.avg_score
    completion_rate := c.completion_rate
    student_count := c.student_count }

/-- The descending-score order used by
`result.sort_values('difficulty_score', ascending=False)` (line 68). -/
def scoreGE (a b : DifficultyAssessment) : Prop :=
  b.difficulty_score ≤ a.difficulty_score

instance : DecidableRel scoreGE := fun a b =>
  inferInstanceAs (Decidable (b.difficulty_score ≤ a.difficulty_score))

instance : IsTotal DifficultyAssessment scoreGE :=
  ⟨fun a b => (le_total b.difficulty_score a.difficulty_score)⟩

instance : IsTrans DifficultyAssessment scoreGE :=
  ⟨fun _ _ _ h1 h2 => le_trans h2 h1⟩

/-- Method `DifficultyAnalyzer.analyze_difficulty` (lines 21-68): score every
chapter of the batch, attach level and dense rank, and return the rows
sorted by `difficulty_score` descending. -/
def analyze_difficulty (batch : List ChapterFeatures) :
    List DifficultyAssessment :=
  List.insertionSort scoreGE (batch.map (assessmentRow batch))

/-! ## Student feature engineering (`src/data/feature_engineering.py`) -/

/-- One validated raw row (`ChapterEvent` of the spec data model). -/
structure ChapterEvent where
  student_id : ℤ
  course_id : ℤ
  chapter_order : ℤ
  time_spent : ℚ
  score : ℚ
  completion_status : ℚ
  deriving DecidableEq, Repr

instance : DecidableRel
    (fun a b : ChapterEvent => a.chapter_order ≤ b.chapter_order) :=
  fun a b => inferInstanceAs (Decidable (a.chapter_order ≤ b.chapter_order))

/-- Sorting `group.sort_values('chapter_order')` inside `_calculate_score_trend`
(line 129); a stable sort, ties keep their incoming order. -/
def sortByChapter (g : List ChapterEvent) : List ChapterEvent :=
  List.insertionSort (fun a b => a.chapter_order ≤ b.chapter_order) g

/-- Function `_calculate_score_trend` (`feature_engineering.py` lines 121-135):
0 when the group has fewer than 4 events, otherwise the mean score of the
last 3 events minus the mean score of the first 3 after ordering by
`chapter_order` (`head(3)` / `tail(3)`). -/
def _calculate_score_trend (group : List ChapterEvent) : ℚ :=
  if group.length < 4 then 0
  else
    let g := sortByChapter group
    let first_avg := mean ((g.take 3).map (·.score))
    let last_avg := mean ((g.drop (g.length - 3)).map (·.score))
    last_avg - first_avg

/-- Maximum of a list of integers (`0` junk value on `[]`, never reached
for a non-empty group). -/
def intMax : List ℤ → ℤ
  | [] => 0
  | x :: xs => xs.foldl max x

/-- A student-level feature vector: the columns produced by
`engineer_student_features` (lines 9-72); `score_std`/`time_std` omitted,
see the file header. -/
structure StudentFeatures where
  student_id : ℤ
  course_id : ℤ
  avg_score : ℚ
  min_score : ℚ
  max_score : ℚ
  total_time_spent : ℚ
  avg_time_per_chapter : ℚ
  chapters_attempted : ℕ
  last_chapter : ℤ
  chapters_completed : ℚ
  completion_rate : ℚ
  engagement_rate : ℚ
  score_trend : ℚ
  low_score_count : ℕ
  deriving DecidableEq, Repr

/-- Function `engineer_student_features` (lines 9-72).  One vector per distinct
`(student_id, course_id)` pair; the per-key aggregates are taken over the
key's rows `g`, while `score_trend` (line 57: `df.groupby('student_id')`)
and `low_score_count` (line 62, also grouped by `student_id` alone and
merged back on `student_id`) are taken over all rows `sg` of the student
across every course.  pandas emits the keys sorted; this embedding emits
them in first-occurrence order, which changes no row's contents. -/
def engineer_student_features (df : List ChapterEvent) :
    List StudentFeatures :=
  ((df.map fun e => (e.student_id, e.course_id)).dedup).map fun key =>
    let g := df.filter fun e =>
      decide (e.student_id = key.1 ∧ e.course_id = key.2)
    let sg := df.filter fun e => decide (e.student_id = key.1)
    { student_id := key.1
      course_id := key.2
      avg_score := mean (g.map (·.score))
      min_score := listMin (g.map (·.score))
      max_score := listMax (g.map (·.score))
      total_time_spent := (g.map (·.time_spent)).sum
      avg_time_per_chapter := mean (g.map (·.time_spent))
      chapters_attempted := g.length
      last_chapter := intMax (g.map (·.chapter_order))
      chapters_completed := (g.map (·.completion_status)).sum
      completion_rate := (g.map (·.completion_status)).sum / g.length
      engagement_rate := (g.map (·.time_spent)).sum / (g.length * 60)
      score_trend := _calculate_score_trend sg
      low_score_count := (sg.filter fun e => decide (e.score < 50)).length }

/-! ## Ingestion and validation (`src/data/ingestion.py`)

A raw cell is a number, a string, or `NaN`; `validate_data` receives the
DataFrame by reference and writes the coerced numeric columns back into
it (lines 78-81), so the embedding returns the post-call frame alongside
the validation outcome.  The required-columns check (lines 68-73) is
structural here: a `RawRow` always carries its six fields. -/

/-- One raw DataFrame cell. -/
inductive Cell where
  | num (q : ℚ)
  | str (s : String)
  | nan
  deriving DecidableEq, Repr

/-- Value of a digit string. -/
def digitsVal (cs : List Char) : ℕ :=
  cs.foldl (fun a c => a * 10 + (c.toNat - 48)) 0

/-- Numeric parsing as `pd.to_numeric` applies it to a string: an optional
sign, then a decimal literal.  (Scientific notation and surrounding
whitespace, which pandas also accepts, are not exercised by any claim and
are omitted.) -/
def parseNum (s : String) : Option ℚ :=
  let cs := s.toList
  let neg : Bool := cs.head? = some '-'
  let body := if cs.head? = some '-' ∨ cs.head? = some '+' then cs.drop 1
    else cs
  let ip := body.takeWhile (fun c => c ≠ '.')
  let fp := (body.dropWhile (fun c => c ≠ '.')).drop 1
  let signed : ℚ → ℚ := fun v => if neg then -v else v
  if body.isEmpty ∨ (ip.isEmpty ∧ fp.isEmpty) then none
  else if body.any (fun c => c = '.') then
    if ip.all Char.isDigit ∧ fp.all Char.isDigit then
      some (signed ((digitsVal ip : ℚ) + (digitsVal fp : ℚ) / 10 ^ fp.length))
    else none
  else if ip.all Char.isDigit then some (signed (digitsVal ip : ℚ))
  else none

/-- Coercion `pd.to_numeric(column, errors='coerce')` on one cell: numbers pass
through, unparsable strings become `NaN`. -/
def to_numeric (c : Cell) : Cell :=
  match c with
  | .num q => .num q
  | .nan => .nan
  | .str s => match parseNum s with
    | some q => .num q
    | none => .nan

/-- Test for the `NaN` cell (`Series.isna`). -/
def Cell.isna : Cell → Bool
  | .nan => true
  | _ => false

/-- Comparison `column < q` on one cell; pandas comparisons with `NaN` are `False`. -/
def cellLt (c : Cell) (q : ℚ) : Bool :=
  match c with
  | .num x => decide (x < q)
  | _ => false

/-- Comparison `column > q` on one cell. -/
def cellGt (c : Cell) (q : ℚ) : Bool :=
  match c with
  | .num x => decide (q < x)
  | _ => false

/-- Membership `column.isin([0, 1])` on one cell; `NaN` is in no list. -/
def cellIn01 (c : Cell) : Bool :=
  match c with
  | .num x => decide (x = 0 ∨ x = 1)
  | _ => false

/-- One raw input row. -/
structure RawRow where
  student_id : Cell
  course_id : Cell
  chapter_order : Cell
  time_spent : Cell
  score : Cell
  completion_status : Cell
  deriving DecidableEq, Repr

/-- The in-place column coercions of `validate_data` lines 78-81: exactly
`time_spent`, `score`, `chapter_order` and `completion_status` are
coerced; `student_id` and `course_id` are left untouched. -/
def coerceRow (r : RawRow) : RawRow :=
  { r with
    time_spent := to_numeric r.time_spent
    score := to_numeric r.score
    chapter_order := to_numeric r.chapter_order
    completion_status := to_numeric r.completion_status }

/-- Function `validate_data` (`ingestion.py` lines 53-102).  Returns the frame as
the caller sees it after the call (the coercions of lines 78-81 persist
even when a later check raises) together with `none` on success or the
raised error message.  The `NaN` check of line 84 inspects only
`time_spent`, `score` and `chapter_order`. -/
def validate_data (df : List RawRow) : List RawRow × Option String :=
  if df.isEmpty then (df, some ("Input data is empty"))
  else
    let df2 := df.map coerceRow
    if df2.any (fun r =>
        r.time_spent.isna || r.score.isna || r.chapter_order.isna) then
      (df2, some ("Some numeric columns contain invalid values"))
    else if df2.any (fun r => cellLt r.score 0 || cellGt r.score 100) then
      (df2, some ("Score values must be between 0 and 100"))
    else if df2.any (fun r => cellLt r.time_spent 0) then
      (df2, some ("Time spent values must be non-negative"))
    else if df2.any (fun r => cellLt r.chapter_order 1) then
      (df2, some ("Chapter order must start from 1"))
    else if !df2.all (fun r => cellIn01 r.completion_status) then
      (df2, some ("Completion status must be 0 or 1"))
    else (df2, none)

/-! ## Preprocessing (`src/data/preprocessing.py`)

Rows here carry the three columns the preprocessor touches as
`Option ℚ` (`none` is `NaN`); the identifier columns pass through
untouched. -/

/-- One row as the preprocessor sees it. -/
structure PRow where
  student_id : ℤ
  course_id : ℤ
  chapter_order : ℤ
  time_spent : Option ℚ
  score : Option ℚ
  completion_status : Option ℚ
  deriving DecidableEq, Repr

/-- Quantile `Series.quantile(p)` with pandas' default linear interpolation,
skipping nothing (callers pass the non-`NaN` values); `none` on an empty
series (pandas `NaN`). -/
def quantile (xs : List ℚ) (p : ℚ) : Option ℚ :=
  if xs.isEmpty then none
  else
    let s := List.insertionSort (fun a b : ℚ => a ≤ b) xs
    let pos : ℚ := p * ((s.length : ℚ) - 1)
    let i : ℕ := pos.floor.toNat
    let frac : ℚ := pos - (i : ℚ)
    if i + 1 < s.length then
      some (s.getD i 0 + frac * (s.getD (i + 1) 0 - s.getD i 0))
    else some (s.getD i 0)

/-- Filling `Series.fillna(v)`: a `NaN` fill value leaves `NaN` in place. -/
def fillna (v : Option ℚ) (c : Option ℚ) : Option ℚ :=
  match c with
  | some x => some x
  | none => v

/-- Mean `Series.mean()` skipping `NaN`s already removed by the caller;
`none` on an empty series. -/
def meanOpt (xs : List ℚ) : Option ℚ :=
  if xs.isEmpty then none else some (mean xs)

/-- Method `DataPreprocessor._handle_missing_values` (lines 60-76): median-fill
`time_spent`, mean-fill `score`, zero-fill `completion_status`, each only
when the column has a missing entry. -/
def _handle_missing_values (df : List PRow) : List PRow :=
  let df1 := if df.any (fun r => r.time_spent.isNone) then
      let m := quantile (df.filterMap (·.time_spent)) (1 / 2)
      df.map (fun r => { r with time_spent := fillna m r.time_spent })
    else df
  let df2 := if df1.any (fun r => r.score.isNone) then
      let m := meanOpt (df1.filterMap (·.score))
      df1.map (fun r => { r with score := fillna m r.score })
    else df1
  if df2.any (fun r => r.completion_status.isNone) then
    df2.map (fun r =>
      { r with completion_status := fillna (some 0) r.completion_status })
  else df2

/-- Method `DataPreprocessor._handle_outliers` (lines 78-92): Tukey clamp of
`time_spent` to `[max(0, Q1 - 1.5 IQR), Q3 + 1.5 IQR]`, quartiles from the
current batch; rows are clamped, never dropped.  When the column has no
non-`NaN` value the quantiles are `NaN` and the clip is a no-op. -/
def _handle_outliers (df : List PRow) : List PRow :=
  match quantile (df.filterMap (·.time_spent)) (1 / 4),
      quantile (df.filterMap (·.time_spent)) (3 / 4) with
  | some q1, some q3 =>
    let iqr := q3 - q1
    let lower_bound := max 0 (q1 - 3 / 2 * iqr)
    let upper_bound := q3 + 3 / 2 * iqr
    df.map (fun r =>
      { r with time_spent :=
          r.time_spent.map (fun x => min upper_bound (max lower_bound x)) })
  | _, _ => df

/-- The preprocessor's only instance state (`is_fitted`; the unused
`StandardScaler` member is never applied to data). -/
structure DataPreprocessor where
  is_fitted : Bool
  deriving DecidableEq, Repr

/-- Method `DataPreprocessor.fit_transform` (lines 19-38): impute, clamp, set
`is_fitted`. -/
def fit_transform (p : DataPreprocessor) (df : List PRow) :
    DataPreprocessor × List PRow :=
  ({ p with is_fitted := true },
    _handle_outliers (_handle_missing_values df))

/-- Method `DataPreprocessor.transform` (lines 40-58): impute and clamp with the
same batch-local statistics, state untouched. -/
def transform (p : DataPreprocessor) (df : List PRow) :
    DataPreprocessor × List PRow :=
  (p, _handle_outliers (_handle_missing_values df))

/-! ## Concrete inputs used by witnesses and counterexamples -/

/-- Shorthand for a chapter event with fixed time and completion. -/
def evc (s c ch : ℤ) (sc : ℚ) : ChapterEvent :=
  { student_id := s, course_id := c, chapter_order := ch, time_spent := 10,
    score := sc, completion_status := 1 }

/-- One student enrolled in two courses, two chapter events in each. -/
def dfTwoCourses : List ChapterEvent :=
  [evc 1 1 1 0, evc 1 1 2 0, evc 1 2 3 100, evc 1 2 4 100]

/-- One student with three chapter events in one course (the spec's
three-event trend example). -/
def dfThreeEvents : List ChapterEvent :=
  [evc 2 1 1 85, evc 2 1 2 90, evc 2 1 3 88]

/-- A single chapter feature vector. -/
def cfSolo : ChapterFeatures :=
  { course_id := 1, chapter_order := 2, avg_score := 60, student_count := 10,
    avg_time_spent := 60, completions := 5, attempts := 10,
    completion_rate := 1 / 2, dropout_rate := 1 / 2 }

/-- First vector of a batch whose `dropout_rate` signal is constant. -/
def cfFlatA : ChapterFeatures :=
  { course_id := 1, chapter_order := 1, avg_score := 80, student_count := 5,
    avg_time_spent := 20, completions := 5, attempts := 5,
    completion_rate := 1, dropout_rate := 0 }

/-- Second vector of a batch whose `dropout_rate` signal is constant. -/
def cfFlatB : ChapterFeatures :=
  { course_id := 1, chapter_order := 2, avg_score := 40, student_count := 5,
    avg_time_spent := 90, completions := 5, attempts := 5,
    completion_rate := 1, dropout_rate := 0 }

/-- A row whose `time_spent` holds the numeric string "5" and is otherwise
valid. -/
def rowNumStr : RawRow :=
  { student_id := Cell.num 1
    course_id := Cell.num 1
    chapter_order := Cell.num 1
    time_spent := Cell.str ("5")
    score := Cell.num 50
    completion_status := Cell.num 1 }

/-- A row whose `student_id` holds the uncoercible string "abc" and is
otherwise valid. -/
def rowStrId : RawRow :=
  { student_id := Cell.str ("abc")
    course_id := Cell.num 1
    chapter_order := Cell.num 1
    time_spent := Cell.num 5
    score := Cell.num 50
    completion_status := Cell.num 1 }

/-- A row whose `time_spent` holds the uncoercible string "x" and is
otherwise valid. -/
def rowBadTime : RawRow :=
  { student_id := Cell.num 1
    course_id := Cell.num 1
    chapter_order := Cell.num 1
    time_spent := Cell.str ("x")
    score := Cell.num 50
    completion_status := Cell.num 1 }

/-- A fully numeric valid row. -/
def rowClean : RawRow :=
  { student_id := Cell.num 3
    course_id := Cell.num 1
    chapter_order := Cell.num 2
    time_spent := Cell.num 15
    score := Cell.num 80
    completion_status := Cell.num 0 }

/-- Cells that are not strings (numbers and `NaN`): the cells
`pd.to_numeric` maps to themselves. -/
def nonStringCell : Cell → Bool
  | .str _ => false
  | _ => true

/-- Cells that cannot be coerced to a number: strings `pd.to_numeric`
turns into `NaN`. -/
def uncoercibleCell : Cell → Bool
  | .str s => (parseNum s).isNone
  | _ => false

/-! ## Theorems -/

theorem to_numeric_of_nonString {c : Cell} (h : nonStringCell c = true) :
    to_numeric c = c := by
  cases c with
  | num q => rfl
  | nan => rfl
  | str s => simp [nonStringCell] at h

theorem coerceRow_of_nonString {r : RawRow}
    (ht : nonStringCell r.time_spent = true)
    (hs : nonStringCell r.score = true)
    (hc : nonStringCell r.chapter_order = true)
    (hp : nonStringCell r.completion_status = true) : coerceRow r = r := by
  cases r
  simp only [coerceRow]
  simp_all [to_numeric_of_nonString]

theorem isna_to_numeric_of_uncoercible {c : Cell}
    (h : uncoercibleCell c = true) : (to_numeric c).isna = true := by
  cases c with
  | num q => simp [uncoercibleCell] at h
  | nan => simp [uncoercibleCell] at h
  | str s =>
    simp only [uncoercibleCell, Option.isNone_iff_eq_none] at h
    simp [to_numeric, h, Cell.isna]

theorem normVal_nonneg {xs : List ℚ} {x : ℚ} (hx : x ∈ xs) :
    0 ≤ normVal xs x := by
  unfold normVal
  by_cases h : listMax xs = listMin xs
  · simp [h]
  · rw [if_neg h]
    have h1 := listMin_le_of_mem hx
    have h2 := le_listMax_of_mem hx
    have hlt : listMin xs < listMax xs :=
      lt_of_le_of_ne (le_trans h1 h2) (fun he => h he.symm)
    exact div_nonneg (sub_nonneg.mpr h1) (sub_nonneg.mpr (le_of_lt hlt))

theorem normVal_le_one {xs : List ℚ} {x : ℚ} (hx : x ∈ xs) :
    normVal xs x ≤ 1 := by
  unfold normVal
  by_cases h : listMax xs = listMin xs
  · simp [h]
  · rw [if_neg h]
    have h1 := listMin_le_of_mem hx
    have h2 := le_listMax_of_mem hx
    have hlt : listMin xs < listMax xs :=
      lt_of_le_of_ne (le_trans h1 h2) (fun he => h he.symm)
    exact (div_le_one (sub_pos.mpr hlt)).mpr (sub_le_sub_right h2 _)

/-- C2: for every risk score in `[0,1]` the classifier returns High at or
above 0.7 (0.7 itself included), Medium on `[0.4, 0.7)`, and Low below
0.4. -/
theorem risk_level_thresholds (s : ℚ) (h0 : 0 ≤ s) (h1 : s ≤ 1) :
    (0.7 ≤ s → predict_risk_level s = ("High"))
    ∧ (0.4 ≤ s ∧ s < 0.7 → predict_risk_level s = ("Medium"))
    ∧ (s < 0.4 → predict_risk_level s = ("Low")) := by
  unfold predict_risk_level HIGH_RISK_THRESHOLD MEDIUM_RISK_THRESHOLD
  refine ⟨fun h => ?_, fun h => ?_, fun h => ?_⟩
  · rw [if_pos (by linarith)]
  · rw [if_neg (by norm_num; linarith), if_pos (by linarith)]
  · rw [if_neg (by norm_num; linarith), if_neg (by norm_num; linarith)]

theorem risk_level_thresholds_witness :
    predict_risk_level 0.7 = ("High") :=
  (risk_level_thresholds 0.7 (by norm_num) (by norm_num)).1 (le_refl _)

/-- C5: for every difficulty score in `[0,100]`, scores up to and
including 33 are Easy (the lowest edge is inclusive), scores in `(33,66]`
are Medium, and scores in `(66,100]` are Hard. -/
theorem difficulty_level_bin_edges (s : ℚ) (h0 : 0 ≤ s) (h1 : s ≤ 100) :
    (s ≤ 33 → difficultyLevel s = some ("Easy"))
    ∧ (33 < s → s ≤ 66 → difficultyLevel s = some ("Medium"))
    ∧ (66 < s → difficultyLevel s = some ("Hard")) := by
  unfold difficultyLevel
  refine ⟨fun h => ?_, fun h h' => ?_, fun h => ?_⟩
  · rw [if_pos ⟨h0, h⟩]
  · rw [if_neg (by push_neg; intro; linarith), if_pos ⟨h, h'⟩]
  · rw [if_neg (by push_neg; intro; linarith),
      if_neg (by push_neg; intro; linarith), if_pos ⟨h, h1⟩]

theorem difficulty_level_bin_edges_witness :
    difficultyLevel 33 = some ("Easy") :=
  (difficulty_level_bin_edges 33 (by norm_num) (by norm_num)).1 (le_refl _)

/-- C4: when the `dropout_rate` signal has equal minimum and maximum over
the batch, min-max normalization returns 0 for every entry (the total `ℚ`
embedding has no `NaN` or division error to produce). -/
theorem degenerate_signal_normalizes_to_zero (batch : List ChapterFeatures)
    (h : listMin (batch.map (·.dropout_rate))
      = listMax (batch.map (·.dropout_rate))) :
    _normalize (batch.map (·.dropout_rate))
      = (batch.map (·.dropout_rate)).map (fun _ => 0) := by
  unfold _normalize
  rw [if_pos h.symm]

theorem degenerate_signal_normalizes_to_zero_witness :
    _normalize ([cfFlatA, cfFlatB].map (·.dropout_rate))
      = ([cfFlatA, cfFlatB].map (·.dropout_rate)).map (fun _ => 0) :=
  degenerate_signal_normalizes_to_zero [cfFlatA, cfFlatB] (by decide)

/-- C9: the fit path and the apply path of the preprocessor return the
same preprocessed records on every batch, whatever the incoming
preprocessor states: both impute from the batch's own median/mean and
clamp with the batch's own IQR bounds. -/
theorem fit_transform_agrees_with_transform (p q : DataPreprocessor)
    (df : List PRow) : (fit_transform p df).2 = (transform q df).2 := rfl

theorem mem_analyze_difficulty {batch : List ChapterFeatures}
    {a : DifficultyAssessment} :
    a ∈ analyze_difficulty batch ↔ ∃ c ∈ batch, assessmentRow batch c = a := by
  unfold analyze_difficulty
  rw [(List.perm_insertionSort scoreGE (batch.map (assessmentRow batch))).mem_iff]
  simp [List.mem_map]

theorem rank_of_mem {batch : List ChapterFeatures} {a : DifficultyAssessment}
    (ha : a ∈ analyze_difficulty batch) :
    a.difficulty_rank
      = denseRank (batch.map (chapterScore batch)) a.difficulty_score := by
  obtain ⟨c, _, rfl⟩ := mem_analyze_difficulty.mp ha
  rfl

theorem score_of_mem {batch : List ChapterFeatures} {a : DifficultyAssessment}
    (ha : a ∈ analyze_difficulty batch) :
    a.difficulty_score ∈ batch.map (chapterScore batch) := by
  obtain ⟨c, hc, rfl⟩ := mem_analyze_difficulty.mp ha
  exact List.mem_map_of_mem _ hc

theorem row_of_score {batch : List ChapterFeatures} {y : ℚ}
    (hy : y ∈ batch.map (chapterScore batch)) :
    ∃ b ∈ analyze_difficulty batch, b.difficulty_score = y := by
  obtain ⟨c, hc, rfl⟩ := List.mem_map.mp hy
  exact ⟨assessmentRow batch c, mem_analyze_difficulty.mpr ⟨c, hc, rfl⟩, rfl⟩

/-- C3: every difficulty score the analyzer emits lies in `[0, 100]`: the
four normalised signals lie in `[0,1]`, the weights are non-negative and
sum to 1, and the weighted sum is scaled by 100. -/
theorem difficulty_score_within_bounds (batch : List ChapterFeatures)
    (a : DifficultyAssessment) (ha : a ∈ analyze_difficulty batch) :
    0 ≤ a.difficulty_score ∧ a.difficulty_score ≤ 100 := by
  obtain ⟨c, hc, rfl⟩ := mem_analyze_difficulty.mp ha
  show 0 ≤ chapterScore batch c ∧ chapterScore batch c ≤ 100
  have hd0 := normVal_nonneg (List.mem_map_of_mem (·.dropout_rate) hc)
  have hd1 := normVal_le_one (List.mem_map_of_mem (·.dropout_rate) hc)
  have ht0 := normVal_nonneg (List.mem_map_of_mem (·.avg_time_spent) hc)
  have ht1 := normVal_le_one (List.mem_map_of_mem (·.avg_time_spent) hc)
  have hs0 := normVal_nonneg (List.mem_map_of_mem (·.avg_score) hc)
  have hs1 := normVal_le_one (List.mem_map_of_mem (·.avg_score) hc)
  have hc0 := normVal_nonneg (List.mem_map_of_mem (·.completion_rate) hc)
  have hc1 := normVal_le_one (List.mem_map_of_mem (·.completion_rate) hc)
  unfold chapterScore DIFFICULTY_WEIGHTS
  constructor <;> · simp only; nlinarith

theorem difficulty_score_within_bounds_witness :
    0 ≤ (assessmentRow [cfSolo] cfSolo).difficulty_score
    ∧ (assessmentRow [cfSolo] cfSolo).difficulty_score ≤ 100 :=
  difficulty_score_within_bounds [cfSolo] (assessmentRow [cfSolo] cfSolo)
    (mem_analyze_difficulty.mpr ⟨cfSolo, List.mem_singleton_self cfSolo, rfl⟩)

/-- C6: `difficulty_rank` is a dense descending ranking: rows whose score
is maximal get rank 1, equal scores share a rank, and a row whose score is
the next strictly lower distinct value carries the previous rank plus
one. -/
theorem difficulty_rank_dense (batch : List ChapterFeatures)
    (a : DifficultyAssessment) (ha : a ∈ analyze_difficulty batch) :
    ((∀ b ∈ analyze_difficulty batch,
        b.difficulty_score ≤ a.difficulty_score) → a.difficulty_rank = 1)
    ∧ (∀ b ∈ analyze_difficulty batch,
        b.difficulty_score = a.difficulty_score →
          b.difficulty_rank = a.difficulty_rank)
    ∧ (∀ b ∈ analyze_difficulty batch,
        b.difficulty_score < a.difficulty_score →
        (∀ c ∈ analyze_difficulty batch,
          ¬(b.difficulty_score < c.difficulty_score
            ∧ c.difficulty_score < a.difficulty_score)) →
          b.difficulty_rank = a.difficulty_rank + 1) := by
  refine ⟨fun hmax => ?_, fun b hb hbs => ?_, fun b hb hlt hgap => ?_⟩
  · rw [rank_of_mem ha, denseRank]
    have he : (batch.map (chapterScore batch)).toFinset.filter
        (fun y => a.difficulty_score < y) = ∅ := by
      rw [Finset.filter_eq_empty_iff]
      intro y hy
      obtain ⟨b, hb, rfl⟩ := row_of_score (List.mem_toFinset.mp hy)
      exact not_lt.mpr (hmax b hb)
    rw [he, Finset.card_empty]
  · rw [rank_of_mem hb, rank_of_mem ha, hbs]
  · rw [rank_of_mem hb, rank_of_mem ha, denseRank, denseRank]
    have hkey : (batch.map (chapterScore batch)).toFinset.filter
        (fun y => b.difficulty_score < y)
        = insert a.difficulty_score
          ((batch.map (chapterScore batch)).toFinset.filter
            (fun y => a.difficulty_score < y)) := by
      ext y
      simp only [Finset.mem_filter, Finset.mem_insert]
      constructor
      · rintro ⟨hyS, hby⟩
        rcases lt_trichotomy y a.difficulty_score with h | h | h
        · exfalso
          obtain ⟨c, hcM, rfl⟩ := row_of_score (List.mem_toFinset.mp hyS)
          exact hgap c hcM ⟨hby, h⟩
        · exact Or.inl h
        · exact Or.inr ⟨hyS, h⟩
      · rintro (rfl | ⟨hyS, hay⟩)
        · exact ⟨List.mem_toFinset.mpr (score_of_mem ha), hlt⟩
        · exact ⟨hyS, lt_trans hlt hay⟩
    rw [hkey, Finset.card_insert_of_not_mem (by simp)]

theorem difficulty_rank_dense_witness :
    (assessmentRow [cfSolo] cfSolo).difficulty_rank = 1 := by
  refine (difficulty_rank_dense [cfSolo] (assessmentRow [cfSolo] cfSolo)
    (mem_analyze_difficulty.mpr
      ⟨cfSolo, List.mem_singleton_self cfSolo, rfl⟩)).1 ?_
  intro b hb
  obtain ⟨c, hc, rfl⟩ := mem_analyze_difficulty.mp hb
  rw [List.mem_singleton.mp hc]

/-- C10: the analyzer returns its assessments sorted by difficulty score
in descending order, so the hardest chapter (a maximal score) is the first
element of the result. -/
theorem analyze_difficulty_sorted_descending (batch : List ChapterFeatures) :
    List.Sorted scoreGE (analyze_difficulty batch)
    ∧ ∀ x, (analyze_difficulty batch).head? = some x →
        ∀ b ∈ analyze_difficulty batch,
          b.difficulty_score ≤ x.difficulty_score := by
  have hs : List.Sorted scoreGE (analyze_difficulty batch) :=
    List.sorted_insertionSort scoreGE (batch.map (assessmentRow batch))
  refine ⟨hs, fun x hx b hb => ?_⟩
  rcases hout : analyze_difficulty batch with _ | ⟨h, t⟩
  · rw [hout] at hx; cases hx
  · rw [hout] at hx
    injection hx with hx
    subst hx
    rw [hout] at hs hb
    rcases List.mem_cons.mp hb with rfl | hmem
    · exact le_refl _
    · exact List.rel_of_sorted_cons hs b hmem

theorem analyze_difficulty_sorted_descending_witness :
    List.Sorted scoreGE (analyze_difficulty [cfSolo])
    ∧ (assessmentRow [cfSolo] cfSolo).difficulty_score
      ≤ (assessmentRow [cfSolo] cfSolo).difficulty_score :=
  ⟨(analyze_difficulty_sorted_descending [cfSolo]).1,
    (analyze_difficulty_sorted_descending [cfSolo]).2
      (assessmentRow [cfSolo] cfSolo) rfl (assessmentRow [cfSolo] cfSolo)
      (mem_analyze_difficulty.mpr
        ⟨cfSolo, List.mem_singleton_self cfSolo, rfl⟩)⟩

/-- C1 (amended): `score_trend` is grouped by `student_id` alone, pooling
the student's events across every course: the vector's trend is 0 when the
student has fewer than 4 events overall, and otherwise is the mean score
of the student's last 3 events minus the mean of the first 3 after
ordering all of the student's events by `chapter_order` — not the events
sharing the vector's `(student_id, course_id)` key. -/
theorem score_trend_groups_by_student (df : List ChapterEvent)
    (fv : StudentFeatures) (hfv : fv ∈ engineer_student_features df) :
    ((df.filter fun e => decide (e.student_id = fv.student_id)).length < 4 →
      fv.score_trend = 0)
    ∧ (4 ≤ (df.filter fun e =>
          decide (e.student_id = fv.student_id)).length →
        fv.score_trend =
          mean (((sortByChapter (df.filter fun e =>
              decide (e.student_id = fv.student_id))).drop
            ((sortByChapter (df.filter fun e =>
              decide (e.student_id = fv.student_id))).length - 3)).map
                (·.score))
          - mean (((sortByChapter (df.filter fun e =>
              decide (e.student_id = fv.student_id))).take 3).map
                (·.score))) := by
  unfold engineer_student_features at hfv
  obtain ⟨key, hkey, rfl⟩ := List.mem_map.mp hfv
  refine ⟨fun h => ?_, fun h => ?_⟩
  · show _calculate_score_trend _ = 0
    rw [_calculate_score_trend, if_pos h]
  · show _calculate_score_trend _ = _
    rw [_calculate_score_trend, if_neg (not_lt.mpr h)]

theorem score_trend_mixes_courses_counterexample :
    ∃ fv ∈ engineer_student_features dfTwoCourses,
      (dfTwoCourses.filter fun e =>
        decide (e.student_id = fv.student_id
          ∧ e.course_id = fv.course_id)).length < 4
      ∧ fv.score_trend ≠ 0 := by
  refine ⟨_, List.mem_map_of_mem _ (by decide :
    ((1 : ℤ), (1 : ℤ)) ∈
      (dfTwoCourses.map fun e => (e.student_id, e.course_id)).dedup),
    by decide, ?_⟩
  show _calculate_score_trend
    (dfTwoCourses.filter fun e => decide (e.student_id = 1)) ≠ 0
  have hs : (dfTwoCourses.filter fun e => decide (e.student_id = 1))
      = dfTwoCourses := by decide
  rw [hs]
  norm_num [_calculate_score_trend, sortByChapter, List.insertionSort,
    List.orderedInsert, dfTwoCourses, evc, mean]

theorem score_trend_groups_by_student_witness :
    ∃ fv ∈ engineer_student_features dfThreeEvents, fv.score_trend = 0 := by
  have hmem : ((2 : ℤ), (1 : ℤ)) ∈
      (dfThreeEvents.map fun e => (e.student_id, e.course_id)).dedup := by
    decide
  exact ⟨_, List.mem_map_of_mem _ hmem,
    (score_trend_groups_by_student dfThreeEvents _
      (List.mem_map_of_mem _ hmem)).1 (by decide)⟩

/-- C7 (amended): the validator coerces the four checked numeric columns
in place, so the input batch comes back unchanged exactly when
`time_spent`, `score`, `chapter_order` and `completion_status` already
hold numeric (or missing) values; a batch holding a numeric string in one
of those fields is mutated by the call. -/
theorem validate_data_coerces_in_place (df : List RawRow)
    (h : ∀ r ∈ df, nonStringCell r.time_spent = true
      ∧ nonStringCell r.score = true
      ∧ nonStringCell r.chapter_order = true
      ∧ nonStringCell r.completion_status = true) :
    (validate_data df).1 = df := by
  have hmap : df.map coerceRow = df := by
    induction df with
    | nil => rfl
    | cons r rs ih =>
      simp only [List.map_cons]
      obtain ⟨h1, h2, h3, h4⟩ := h r (List.mem_cons_self r rs)
      rw [coerceRow_of_nonString h1 h2 h3 h4,
        ih (fun x hx => h x (List.mem_cons_of_mem r hx))]
  simp only [validate_data]
  split_ifs <;> simp [hmap]

theorem validate_data_mutates_counterexample :
    (validate_data [rowNumStr]).1 ≠ [rowNumStr]
    ∧ (validate_data [rowNumStr]).2 = none := by decide

theorem validate_data_coerces_in_place_witness :
    (validate_data [rowClean]).1 = [rowClean] :=
  validate_data_coerces_in_place [rowClean] (by decide)

theorem cellIn01_eq_false_of_isna {c : Cell} (h : c.isna = true) :
    cellIn01 c = false := by
  cases c <;> simp [Cell.isna, cellIn01] at h ⊢

/-- C8 (amended): an uncoercible value in one of the four coerced fields
(`time_spent`, `score`, `chapter_order`, `completion_status`) fails the
whole batch with an error; the code never checks `student_id` or
`course_id` for coercibility. -/
theorem uncoercible_checked_field_fails_batch (df : List RawRow)
    (r : RawRow) (hr : r ∈ df)
    (hbad : uncoercibleCell r.time_spent = true
      ∨ uncoercibleCell r.score = true
      ∨ uncoercibleCell r.chapter_order = true
      ∨ uncoercibleCell r.completion_status = true) :
    (validate_data df).2 ≠ none := by
  intro hnone
  cases df with
  | nil => cases hr
  | cons r0 rs =>
    simp only [validate_data, List.isEmpty_cons, Bool.false_eq_true,
      if_false] at hnone
    split_ifs at hnone with h1 h2 h3 h4 h5 <;> simp at hnone
    rcases hbad with hb | hb | hb | hb
    · exact h1 (List.any_eq_true.mpr ⟨coerceRow r,
        List.mem_map_of_mem coerceRow hr,
        by simp [coerceRow, isna_to_numeric_of_uncoercible hb]⟩)
    · exact h1 (List.any_eq_true.mpr ⟨coerceRow r,
        List.mem_map_of_mem coerceRow hr,
        by simp [coerceRow, isna_to_numeric_of_uncoercible hb]⟩)
    · exact h1 (List.any_eq_true.mpr ⟨coerceRow r,
        List.mem_map_of_mem coerceRow hr,
        by simp [coerceRow, isna_to_numeric_of_uncoercible hb]⟩)
    · have hall : ((r0 :: rs).map coerceRow).all
          (fun x => cellIn01 x.completion_status) = true := by
        revert h5
        cases ((r0 :: rs).map coerceRow).all
          (fun x => cellIn01 x.completion_status) <;> simp
      have hmem := List.all_eq_true.mp hall (coerceRow r)
        (List.mem_map_of_mem coerceRow hr)
      rw [show (coerceRow r).completion_status
          = to_numeric r.completion_status from rfl,
        cellIn01_eq_false_of_isna (isna_to_numeric_of_uncoercible hb)]
        at hmem
      cases hmem

theorem uncoercible_id_passes_counterexample :
    rowStrId.student_id = Cell.str ("abc") ∧ parseNum ("abc") = none
    ∧ (validate_data [rowStrId]).2 = none := by decide

theorem uncoercible_checked_field_fails_batch_witness :
    (validate_data [rowBadTime]).2 ≠ none :=
  uncoercible_checked_field_fails_batch [rowBadTime] rowBadTime
    (List.mem_singleton_self rowBadTime) (Or.inl (by decide))

end LIT
